import Mathlib

/-!
Verification of the turn-taking core of the Automated Candidate Interview
Agent (src/app.py, src/custom_agents.py), shallowly embedded in Lean 4.

Conventions used throughout:
* A chat message (a Python dict with keys "role" and "content") is the
  structure `Message`.
* The five agent objects constructed in src/app.py, plus arbitrary foreign
  objects (agents are compared by object identity in Python), form the
  inductive type `Agent`; `Agent.other id` stands for any object that is
  none of the five agents.
* `last_speaker = None` in Python becomes `Option.none`.
* The external Gemini generation service is a parameter
  `svc : String → Except String String`; `Except.error e` models the call
  raising an exception whose `str(e)` is `e`.
-/

/-- One chat message, mirroring the dicts `{"role": ..., "content": ...}`
stored in `groupchat.messages` and `st.session_state.chat_history`. -/
structure Message where
  role : String
  content : String
deriving DecidableEq, Repr

/-- The agent objects of src/app.py: the `UserProxyAgent` named
CandidateAgent and the four `GeminiAssistantAgent`s, plus `other id` for
any Python object that is not one of those five (identity comparison with
the five agents is false for such objects). -/
inductive Agent where
  | userProxy
  | resumeAnalyzer
  | questionGenerator
  | interviewer
  | evaluator
  | other (id : Nat)
deriving DecidableEq, Repr

/-- `containsPat pat cs` decides whether `pat` occurs as a contiguous
substring of `cs`, mirroring the Python `in` operator on strings. -/
def containsPat (pat : List Char) : List Char → Bool
  | [] => pat.isEmpty
  | c :: rest => pat.isPrefixOf (c :: rest) || containsPat pat rest

/-- Python `pat in s` for strings. -/
def strIn (pat s : String) : Bool :=
  containsPat pat.toList s.toList

/-- Python `s.lower()`, restricted to ASCII case mapping (all markers the
arbiter matches on are ASCII, where Python and Lean lowercasing agree).
Implemented on the character list so the kernel can evaluate it. -/
def strToLower (s : String) : String :=
  String.mk (s.toList.map Char.toLower)

/-- `messages[-1]["content"] if messages else ""` from
src/app.py line 214. -/
def lastContent (messages : List Message) : String :=
  match messages.getLast? with
  | some m => m.content
  | none => ""

/-- Shallow embedding of `custom_speaker_selection` (src/app.py
lines 201-249).  The Python function receives the `groupchat` object but
reads only `groupchat.messages`, so the embedding takes the message list
directly.  Branch order and conditions are kept exactly as in the source;
in particular the `elif last_speaker == interviewer_agent` test at source
line 222 sits inside the branch guarded by
`last_speaker is None or last_speaker == user_proxy_agent`. -/
def custom_speaker_selection (last_speaker : Option Agent)
    (messages : List Message) : Option Agent :=
  let last_message := lastContent messages
  if last_speaker = none ∨ last_speaker = some Agent.userProxy then
    if strIn "resume" (strToLower last_message) &&
        strIn "job description" (strToLower last_message) then
      some Agent.resumeAnalyzer
    else if last_speaker = some Agent.interviewer then
      if strIn "TERMINATE" last_message then
        some Agent.evaluator
      else
        some Agent.userProxy
    else
      some Agent.interviewer
  else if last_speaker = some Agent.resumeAnalyzer then
    some Agent.questionGenerator
  else if last_speaker = some Agent.questionGenerator then
    some Agent.interviewer
  else if last_speaker = some Agent.interviewer then
    some Agent.userProxy
  else if last_speaker = some Agent.evaluator then
    none
  else
    some Agent.userProxy

/-- Shallow embedding of `GeminiWrapper.generate_content` (src/app.py
lines 69-101).  The external Gemini call
`genai.GenerativeModel(...).generate_content(prompt)` is the parameter
`svc`; `Except.error e` models the call raising an exception `e` with
`str(e) = e`.  The `try`/`except Exception as e` of the source catches
every exception and returns the string `"Error: " ++ str(e)`, so the
embedding is a total function into `String`. -/
def generate_content (svc : String → Except String String)
    (prompt : String) : String :=
  match svc prompt with
  | Except.ok text => text
  | Except.error e => "Error: " ++ e

/-- Python `str.capitalize()`: first character uppercased, the rest
lowercased (ASCII fragment). -/
def pyCapitalize (s : String) : String :=
  match s.toList with
  | [] => ""
  | c :: rest => String.mk (c.toUpper :: rest.map Char.toLower)

/-- Shallow embedding of
`GeminiAssistantAgent._format_messages_for_gemini`
(src/custom_agents.py lines 129-155): system message first, then each
message with a role label, then a trailing assistant cue. -/
def formatMessagesForGemini (system_message : String)
    (messages : List Message) : String :=
  let start := "System: " ++ system_message ++ "\n\n"
  let body := messages.foldl (fun acc m =>
    if m.role = "user" then
      acc ++ "User: " ++ m.content ++ "\n\n"
    else if m.role = "assistant" then
      acc ++ "Assistant: " ++ m.content ++ "\n\n"
    else
      acc ++ pyCapitalize m.role ++ ": " ++ m.content ++ "\n\n") start
  body ++ "Assistant: "

/-- Shallow embedding of `GeminiAssistantAgent.generate_reply`
(src/custom_agents.py lines 85-127): formats the history into one prompt
and calls the generation service; any exception `e` is caught and mapped
to the returned string `"Error: " ++ str(e)`. -/
def generate_reply (svc : String → Except String String)
    (system_message : String) (messages : List Message) : String :=
  match svc (formatMessagesForGemini system_message messages) with
  | Except.ok text => text
  | Except.error e => "Error: " ++ e

/-- The configuration a `GeminiAssistantAgent` stores after successful
construction (name, system message, model id, temperature). -/
structure AgentConfig where
  name : String
  system_message : String
  model : String
  temperature : ℚ
deriving DecidableEq, Repr

/-- Shallow embedding of `GeminiAssistantAgent.__init__`
(src/custom_agents.py lines 30-83).  `env_google_api_key` is
`os.environ.get("GOOGLE_API_KEY")` (`none` = variable unset).  The source
raises `ValueError` when `not api_key or api_key ==
"YOUR_GEMINI_API_KEY_HERE"`; Python truthiness makes `not api_key` true
exactly for `None` and the empty string.  Raising is modelled as
`Except.error` carrying the message from source line 81. -/
def geminiAssistantAgentInit (env_google_api_key : Option String)
    (name system_message model : String) (temperature : ℚ) :
    Except String AgentConfig :=
  if env_google_api_key = none ∨ env_google_api_key = some "" ∨
      env_google_api_key = some "YOUR_GEMINI_API_KEY_HERE" then
    Except.error
      "GOOGLE_API_KEY not found or not set. Please check your .env file."
  else
    Except.ok ⟨name, system_message, model, temperature⟩

/-- Python whitespace for `str.strip()` (space, tab, newline, carriage
return, vertical tab, form feed). -/
def isPySpace (c : Char) : Bool :=
  c = ' ' || c = '\t' || c = '\n' || c = '\r' || c = '\x0b' || c = '\x0c'

/-- Python `s.strip()`. -/
def strStrip (s : String) : String :=
  String.mk (((s.toList.dropWhile isPySpace).reverse.dropWhile
    isPySpace).reverse)

/-- The three inputs the start-interview handler validates: the candidate
name text box, the resume upload (`none` = no file, `some size` = a file
of `size` bytes) and the job description text area. -/
structure StartInput where
  candidate_name : String
  resume_file : Option Nat
  job_description : String
deriving DecidableEq, Repr

/-- Shallow embedding of the `validation_errors` accumulation in `main`
(src/app.py lines 436-451): name, resume and job-description checks in
source order. -/
def validation_errors (inp : StartInput) : List String :=
  (if strStrip inp.candidate_name = "" then
    ["Candidate name is required"]
  else if (strStrip inp.candidate_name).length < 2 then
    ["Candidate name must be at least 2 characters long"]
  else []) ++
  (match inp.resume_file with
  | none => ["Resume file is required"]
  | some size =>
    if size > 10 * 1024 * 1024 then
      ["Resume file must be smaller than 10MB"]
    else []) ++
  (if strStrip inp.job_description = "" then
    ["Job description is required"]
  else if (strStrip inp.job_description).length < 50 then
    ["Job description must be at least 50 characters long"]
  else [])

/-- The resume-analysis prompt built in `main` (src/app.py
lines 485-493), with the surrounding f-string indentation elided. -/
def analysis_prompt (resume_text job_description : String) : String :=
  "You are an expert HR analyst. Analyze this resume against the job description:\n\nResume: "
    ++ resume_text ++ "\n\nJob Description: " ++ job_description
    ++ "\n\nProvide a detailed analysis in JSON format with match and gap sections."

/-- The question-generation prompt built in `main` (src/app.py
lines 508-513). -/
def questions_prompt (analysis : String) : String :=
  "Based on this analysis: " ++ analysis
    ++ "\n\nGenerate 5 interview questions that would be good to ask this candidate.\nFormat as a numbered list."

/-- Shallow embedding of the start-interview branch of `main` (src/app.py
lines 434-546).  `gen` is `gemini_wrapper.generate_content` (model and
temperature arguments elided; the handler never inspects the generated
text).  Returns the updated chat history together with the validation
errors displayed: when `validation_errors` is non-empty the handler only
shows the errors and the history is untouched; otherwise it appends the
system turn, the analysis turn and the questions turn. -/
def start_interview (gen : String → String) (inp : StartInput)
    (chat_history : List Message) : List Message × List String :=
  let errs := validation_errors inp
  if errs ≠ [] then
    (chat_history, errs)
  else
    let resume_text := "Sample resume text for " ++ inp.candidate_name
    let analysis := gen (analysis_prompt resume_text inp.job_description)
    let questions := gen (questions_prompt analysis)
    (chat_history ++
      [⟨"system", "Interview started for candidate: " ++ inp.candidate_name⟩,
       ⟨"assistant", "Resume Analysis:\n\n" ++ analysis⟩,
       ⟨"assistant", "Interview Questions:\n\n" ++ questions⟩], [])

/-- The session state of the spec data model (spec section 3):
transcript, round counter and termination flag. -/
structure SessionState where
  messages : List Message
  roundCount : Nat
  terminated : Bool
deriving DecidableEq, Repr

/-- The `name` attribute each agent is constructed with in src/app.py. -/
def agentRoleName : Agent → String
  | Agent.userProxy => "CandidateAgent"
  | Agent.resumeAnalyzer => "ResumeAnalyzerAgent"
  | Agent.questionGenerator => "QuestionGeneratorAgent"
  | Agent.interviewer => "InterviewerAgent"
  | Agent.evaluator => "EvaluatorAgent"
  | Agent.other id => "Agent" ++ toString id

/-- Modelled from the spec: the conversation loop itself lives in the
external autogen library (`autogen.GroupChat` / `GroupChatManager`), whose
code is not under src/; src/app.py lines 252-273 only configure it with
the five agents, `max_round = 50` and
`speaker_selection_func = custom_speaker_selection`.  Following spec
sections 3 and 8: each round the arbiter picks the next speaker; if it
returns no next speaker the session terminates; otherwise the chosen
agent's reply is appended and `roundCount` increases by 1; the loop halts
unconditionally when the remaining-round budget (`fuel`, initially
`max_round`) is exhausted.  The trace lists every session state the loop
passes through, the initial and final states included. -/
def run_chat_trace (select : Option Agent → List Message → Option Agent)
    (reply : Agent → List Message → String) :
    Nat → Option Agent → SessionState → List SessionState
  | 0, _, st => [{ st with terminated := true }]
  | fuel + 1, last, st =>
    match select last st.messages with
    | none => [st, { st with terminated := true }]
    | some a =>
      st :: run_chat_trace select reply fuel (some a)
        { messages :=
            st.messages ++ [⟨agentRoleName a, reply a st.messages⟩],
          roundCount := st.roundCount + 1,
          terminated := false }

/-- Modelled from the spec: a whole session driven by the configured
group chat — the loop of `run_chat_trace` started on the seed transcript
with `roundCount = 0`, no previous speaker, and the `max_round = 50`
ceiling set in src/app.py line 261. -/
def group_chat_run (select : Option Agent → List Message → Option Agent)
    (reply : Agent → List Message → String)
    (seed : List Message) : List SessionState :=
  run_chat_trace select reply 50 none ⟨seed, 0, false⟩

/-- Helper: along any `run_chat_trace`, `roundCount` grows by at most the
remaining round budget. -/
theorem run_chat_trace_roundCount_le
    (select : Option Agent → List Message → Option Agent)
    (reply : Agent → List Message → String) :
    ∀ (fuel : Nat) (last : Option Agent) (st s : SessionState),
      s ∈ run_chat_trace select reply fuel last st →
      s.roundCount ≤ st.roundCount + fuel := by
  intro fuel
  induction fuel with
  | zero =>
    intro last st s hs
    simp [run_chat_trace] at hs
    subst hs
    simp
  | succ n ih =>
    intro last st s hs
    cases hsel : select last st.messages with
    | none =>
      simp only [run_chat_trace, hsel, List.mem_cons,
        List.not_mem_nil, or_false] at hs
      rcases hs with hs | hs <;> (subst hs; simp)
    | some a =>
      simp only [run_chat_trace, hsel, List.mem_cons] at hs
      rcases hs with hs | hs
      · subst hs; omega
      · have h2 := ih (some a) _ s hs
        simp only at h2
        omega

/-- C9: with `lastSpeaker = Analyzer` the arbiter returns
QuestionGenerator unconditionally, whatever the transcript contains
(src/app.py lines 233-234). -/
theorem C9_analyzer_always_routes_to_question_generator
    (messages : List Message) :
    custom_speaker_selection (some Agent.resumeAnalyzer) messages =
      some Agent.questionGenerator := by
  simp [custom_speaker_selection]

/-- C3: with `lastSpeaker = Interviewer` the arbiter returns Candidate
for every transcript, even one whose last turn carries the literal token
TERMINATE — termination is never detected on the Interviewer's own turn
(src/app.py lines 241-242). -/
theorem C3_interviewer_always_yields_to_candidate
    (messages : List Message) :
    custom_speaker_selection (some Agent.interviewer) messages =
      some Agent.userProxy := by
  simp [custom_speaker_selection]

/-- C6: any `lastSpeaker` that is none of the five agent objects (and not
`None`) falls through every branch to the final default, so the arbiter
returns Candidate; the embedding is a total function, so no exception is
ever raised — this also covers the empty transcript, where the last
message is taken to be the empty string (src/app.py lines 201-249). -/
theorem C6_unrecognized_speaker_defaults_to_candidate
    (id : Nat) (messages : List Message) :
    custom_speaker_selection (some (Agent.other id)) messages =
      some Agent.userProxy := by
  simp [custom_speaker_selection]

/-- C4: in every session state reachable by the group-chat loop
configured with `max_round = 50` (src/app.py line 261), `roundCount`
never exceeds 50, whatever the speaker-selection function and the agents
reply — even if the arbiter never returns "no next speaker". -/
theorem C4_round_count_never_exceeds_ceiling
    (select : Option Agent → List Message → Option Agent)
    (reply : Agent → List Message → String) (seed : List Message)
    (s : SessionState) (hs : s ∈ group_chat_run select reply seed) :
    s.roundCount ≤ 50 := by
  have h := run_chat_trace_roundCount_le select reply 50 none
    ⟨seed, 0, false⟩ s hs
  simpa using h

/-- Witness for C4: the initial state of a session whose arbiter stops
at once is reachable, and its round count is within the ceiling. -/
theorem C4_witness :
    (⟨[], 0, false⟩ : SessionState).roundCount ≤ 50 :=
  C4_round_count_never_exceeds_ceiling (fun _ _ => none) (fun _ _ => "")
    [] ⟨[], 0, false⟩ (by decide)

/-- C2: with `lastSpeaker = None` on a non-empty transcript whose last
message contains both the resume marker and the job-description marker as
case-insensitive substrings, the arbiter returns Analyzer (src/app.py
lines 213-220). -/
theorem C2_session_start_markers_route_to_analyzer
    (messages : List Message) (hne : messages ≠ [])
    (hres : strIn "resume" (strToLower (lastContent messages)) = true)
    (hjd : strIn "job description" (strToLower (lastContent messages))
      = true) :
    custom_speaker_selection none messages = some Agent.resumeAnalyzer := by
  simp [custom_speaker_selection, hres, hjd]

/-- Witness for C2: a concrete seed turn carrying both markers. -/
theorem C2_witness :
    ([⟨"user", "Resume: 5 years Python.\nJob Description: backend dev."⟩]
        : List Message) ≠ [] ∧
    strIn "resume" (strToLower (lastContent
      [⟨"user", "Resume: 5 years Python.\nJob Description: backend dev."⟩]))
      = true ∧
    strIn "job description" (strToLower (lastContent
      [⟨"user", "Resume: 5 years Python.\nJob Description: backend dev."⟩]))
      = true ∧
    custom_speaker_selection none
      [⟨"user", "Resume: 5 years Python.\nJob Description: backend dev."⟩]
      = some Agent.resumeAnalyzer :=
  ⟨by decide, by decide, by decide,
    C2_session_start_markers_route_to_analyzer _ (by decide) (by decide)
      (by decide)⟩

/-- C10: with `lastSpeaker = Candidate`, a last message containing both
"resume" and "job description" case-insensitively is routed to Analyzer —
the content check takes precedence over the interview-continuation
default even mid-interview (src/app.py lines 217-220). -/
theorem C10_candidate_markers_reroute_to_analyzer
    (messages : List Message)
    (hres : strIn "resume" (strToLower (lastContent messages)) = true)
    (hjd : strIn "job description" (strToLower (lastContent messages))
      = true) :
    custom_speaker_selection (some Agent.userProxy) messages =
      some Agent.resumeAnalyzer := by
  simp [custom_speaker_selection, hres, hjd]

/-- Witness for C10: a Candidate turn submitted mid-interview that embeds
both markers. -/
theorem C10_witness :
    strIn "resume" (strToLower (lastContent
      [⟨"assistant", "Next question?"⟩,
       ⟨"user", "Here is my updated Resume and the Job Description again."⟩]))
      = true ∧
    strIn "job description" (strToLower (lastContent
      [⟨"assistant", "Next question?"⟩,
       ⟨"user", "Here is my updated Resume and the Job Description again."⟩]))
      = true ∧
    custom_speaker_selection (some Agent.userProxy)
      [⟨"assistant", "Next question?"⟩,
       ⟨"user", "Here is my updated Resume and the Job Description again."⟩]
      = some Agent.resumeAnalyzer :=
  ⟨by decide, by decide,
    C10_candidate_markers_reroute_to_analyzer _ (by decide) (by decide)⟩

/-- C1: the claim fails on the code.  On a transcript whose most recent
Interviewer turn (not the last turn) contains TERMINATE, the arbiter
called with `lastSpeaker = Candidate` returns Interviewer, not Evaluator:
in src/app.py the `elif last_speaker == interviewer_agent` test at
line 222 is nested inside the branch that requires `last_speaker` to be
`None` or the Candidate, so it is unreachable dead code and the
Evaluator transition can never fire — contradicting the inline comment
"If TERMINATE is detected, move to evaluation" at lines 223-225. -/
theorem C1_candidate_after_terminate_returns_interviewer :
    custom_speaker_selection (some Agent.userProxy)
      [⟨"assistant",
        "That is all the questions I have for you today. TERMINATE"⟩,
       ⟨"user", "Thank you, goodbye!"⟩] =
      some Agent.interviewer := by decide

/-- C5: a failure of the external generation service never propagates:
`GeminiWrapper.generate_content` (src/app.py lines 69-101) and
`GeminiAssistantAgent.generate_reply` (src/custom_agents.py
lines 85-127) catch every exception `e` and return the visible string
"Error: " followed by `str(e)`; both embeddings are total functions into
`String`, so they raise if and only if never. -/
theorem C5_generation_errors_mapped_to_error_string
    (svc : String → Except String String)
    (prompt system_message : String) (messages : List Message)
    (e1 e2 : String) (h1 : svc prompt = Except.error e1)
    (h2 : svc (formatMessagesForGemini system_message messages) =
      Except.error e2) :
    generate_content svc prompt = "Error: " ++ e1 ∧
    generate_reply svc system_message messages = "Error: " ++ e2 := by
  constructor
  · simp [generate_content, h1]
  · simp [generate_reply, h2]

/-- Witness for C5: a service that always raises "quota exceeded". -/
theorem C5_witness :
    ((fun _ => Except.error "quota exceeded") :
        String → Except String String) "ping" =
      Except.error "quota exceeded" ∧
    ((fun _ => Except.error "quota exceeded") :
        String → Except String String)
        (formatMessagesForGemini "You are Alex." [⟨"user", "hi"⟩]) =
      Except.error "quota exceeded" ∧
    generate_content (fun _ => Except.error "quota exceeded") "ping" =
      "Error: quota exceeded" ∧
    generate_reply (fun _ => Except.error "quota exceeded")
      "You are Alex." [⟨"user", "hi"⟩] = "Error: quota exceeded" :=
  ⟨rfl, rfl,
    C5_generation_errors_mapped_to_error_string
      (fun _ => Except.error "quota exceeded") "ping" "You are Alex."
      [⟨"user", "hi"⟩] "quota exceeded" "quota exceeded" rfl rfl⟩

/-- C7: constructing a `GeminiAssistantAgent` fails with the
configuration `ValueError` if and only if the GOOGLE_API_KEY credential
is missing (unset, or set to the empty string — both falsy in Python) or
equals the placeholder "YOUR_GEMINI_API_KEY_HERE".  The check runs inside
`__init__` (src/custom_agents.py lines 78-83), before any generation
call: the constructor takes no generation service at all, so the failure
precedes any turn. -/
theorem C7_init_raises_iff_credential_missing_or_placeholder
    (env : Option String) (name system_message model : String)
    (temperature : ℚ) :
    (∃ e, geminiAssistantAgentInit env name system_message model
        temperature = Except.error e) ↔
      (env = none ∨ env = some "" ∨
        env = some "YOUR_GEMINI_API_KEY_HERE") := by
  by_cases h : env = none ∨ env = some "" ∨
      env = some "YOUR_GEMINI_API_KEY_HERE"
  · unfold geminiAssistantAgentInit
    rw [if_pos h]
    exact ⟨fun _ => h, fun _ => ⟨_, rfl⟩⟩
  · unfold geminiAssistantAgentInit
    rw [if_neg h]
    constructor
    · rintro ⟨e, he⟩
      cases he
    · intro hc
      exact absurd hc h

/-- C8: whenever the job description is empty or strips to fewer than 50
characters, or the resume upload is missing or larger than 10MB, the
start-interview handler (src/app.py lines 434-455) reports a non-empty
list of validation errors and leaves the chat history exactly as it was
— no turn is appended. -/
theorem C8_invalid_start_rejected_history_unchanged
    (gen : String → String) (inp : StartInput)
    (chat_history : List Message)
    (h : strStrip inp.job_description = "" ∨
      (strStrip inp.job_description).length < 50 ∨
      inp.resume_file = none ∨
      (∃ size, inp.resume_file = some size ∧ size > 10 * 1024 * 1024)) :
    validation_errors inp ≠ [] ∧
    start_interview gen inp chat_history =
      (chat_history, validation_errors inp) := by
  have hne : validation_errors inp ≠ [] := by
    intro hc
    unfold validation_errors at hc
    rw [List.append_eq_nil, List.append_eq_nil] at hc
    obtain ⟨⟨hname, hresume⟩, hjd⟩ := hc
    rcases h with h | h | h | ⟨size, hsz, hgt⟩
    · rw [if_pos h] at hjd
      cases hjd
    · by_cases hempty : strStrip inp.job_description = ""
      · rw [if_pos hempty] at hjd
        cases hjd
      · rw [if_neg hempty, if_pos h] at hjd
        cases hjd
    · rw [h] at hresume
      cases hresume
    · rw [hsz] at hresume
      simp only [if_pos hgt] at hresume
      cases hresume
  refine ⟨hne, ?_⟩
  simp only [start_interview, if_pos hne]

/-- Witness for C8: an empty job description and a missing resume are
rejected and the (empty) history is unchanged. -/
theorem C8_witness :
    (strStrip (StartInput.mk "Bob" none "").job_description = "" ∨
      (strStrip (StartInput.mk "Bob" none "").job_description).length < 50 ∨
      (StartInput.mk "Bob" none "").resume_file = none ∨
      (∃ size, (StartInput.mk "Bob" none "").resume_file = some size ∧
        size > 10 * 1024 * 1024)) ∧
    validation_errors (StartInput.mk "Bob" none "") ≠ [] ∧
    start_interview (fun _ => "") (StartInput.mk "Bob" none "") [] =
      ([], validation_errors (StartInput.mk "Bob" none "")) :=
  ⟨Or.inl (by decide),
    C8_invalid_start_rejected_history_unchanged (fun _ => "")
      (StartInput.mk "Bob" none "") [] (Or.inl (by decide))⟩
